import Mathlib

/-!
Shallow embedding of the check-orchestration and status-aggregation engine
of `ai_apps_manager.py`: the `AIAppTester.run_full_test_suite` battery with
its recommendation generator, and the `HealthMonitor` health battery
(`monitor_all_applications`, `_check_application_health`).

Probes perform I/O in the source; here a probe is represented by the value
its `run` produces — either a normal result dictionary (`Except.ok`) or an
unhandled Python exception carrying its message (`Except.error`).  The
aggregation, dictionary bookkeeping and threshold logic are translated
directly; wall-clock timestamps and the application name are environment
data with no bearing on the verdicts and are omitted.  Python float
literals `0.9`, `0.7`, `0.5`, `0.2` are modelled as the rationals they
denote; at every batch size the source can produce, the float and rational
comparisons agree.
-/

set_option autoImplicit false

namespace AIApps

/-- Result dictionary returned by one test of the battery: the `status`
string plus the optional `error` and `recommendation` entries that the
recommendation generator reads. -/
structure TestResult where
  status : String
  error : Option String := none
  recommendation : Option String := none
  deriving DecidableEq, Repr

deriving instance DecidableEq for Except

/-- Behaviour of one probe: either the result its body returns, or the
message of the unhandled exception it raises. -/
abbrev ProbeRun := Except String TestResult

/-- Outcome recorded for one probe by the batch loop: a normal result is
stored as-is; an unhandled exception is caught and stored as a result with
status `error` and the stringified exception (source lines 270-281). -/
def runOne (b : ProbeRun) : TestResult :=
  match b with
  | .ok r => r
  | .error e => { status := "error", error := some e }

/-- Python dictionary assignment `d[k] = v` on an association list: replace
the entry if the key is present, append otherwise. -/
def dictInsert (d : List (String × TestResult)) (k : String) (v : TestResult) :
    List (String × TestResult) :=
  if d.any (fun p => p.1 = k) then
    d.map (fun p => if p.1 = k then (k, v) else p)
  else
    d ++ [(k, v)]

/-- Python dictionary lookup `d.get(k)` on an association list. -/
def dictGet (d : List (String × TestResult)) (k : String) : Option TestResult :=
  match d with
  | [] => none
  | p :: rest => if p.1 = k then some p.2 else dictGet rest k

/-- Number of probes of a suite whose recorded outcome has status
`passed` — the `passed_tests` counter of the batch loop. -/
def passedCount (suite : List (String × ProbeRun)) : Nat :=
  (suite.map (fun p => runOne p.2)).countP (fun r => r.status == "passed")

/-- Overall status of the battery (source lines 283-292):
`success_rate = passed_tests / total_tests`, then the threshold chain
`>= 0.9` excellent, `>= 0.7` good, `>= 0.5` fair, else poor. -/
def overallStatus (passedTests totalTests : Nat) : String :=
  let success_rate : ℚ := (passedTests : ℚ) / (totalTests : ℚ)
  if success_rate ≥ 9/10 then ("excellent")
  else if success_rate ≥ 7/10 then ("good")
  else if success_rate ≥ 1/2 then ("fair")
  else ("poor")

/-- Fixed trailing recommendations, appended unconditionally
(source lines 467-473). -/
def genericRecommendations : List String :=
  ["📚 Add comprehensive README with setup instructions",
   "🐳 Add Dockerfile for containerization",
   "⚙️ Add GitHub Actions CI/CD workflow",
   "📊 Add health check endpoints",
   "🔍 Add logging and monitoring"]

/-- Recommendations one result contributes: a fix entry when failed, an
implement reminder when skipped, otherwise the attached recommendation as
an advisory when one is present (source lines 458-464, per-item view). -/
def recForResult (test_name : String) (r : TestResult) : List String :=
  if r.status == "failed" then
    ["🔴 Fix " ++ test_name ++ ": " ++ r.error.getD ("Unknown error")]
  else if r.status == "skipped" then
    ["⚠️ Implement " ++ test_name ++ ": " ++ r.recommendation.getD ("Not implemented")]
  else
    match r.recommendation with
    | some rec => ["💡 " ++ rec]
    | none => []

/-- Loop body of `_generate_recommendations` (source lines 458-464): the
branch chain `failed` / `skipped` / key `recommendation` present, each
appending one string to the accumulated list. -/
def recStep (recs : List String) (p : String × TestResult) : List String :=
  if p.2.status == "failed" then
    recs ++ ["🔴 Fix " ++ p.1 ++ ": " ++ p.2.error.getD ("Unknown error")]
  else if p.2.status == "skipped" then
    recs ++ ["⚠️ Implement " ++ p.1 ++ ": " ++ p.2.recommendation.getD ("Not implemented")]
  else
    match p.2.recommendation with
    | some rec => recs ++ ["💡 " ++ rec]
    | none => recs

/-- Recommendation generator `_generate_recommendations` (source lines
454-475): one pass over the result dictionary in insertion order, appending
category-specific strings, then the generic trailing list. -/
def generateRecommendations (test_results : List (String × TestResult)) : List String :=
  (test_results.foldl recStep []) ++ genericRecommendations

/-- Result of `run_full_test_suite`: the fields derived from the outcomes
(`app_name` and `test_timestamp` are environment data and omitted). -/
structure SuiteResults where
  overall_status : String
  tests : List (String × TestResult)
  recommendations : List String
  deriving DecidableEq, Repr

/-- Batch runner `run_full_test_suite` (source lines 247-297): every probe
of the suite is executed, an unhandled exception is converted to an error
outcome, outcomes are stored in the result dictionary keyed by probe name,
the overall status is `overallStatus passed_tests total_tests` with
`total_tests` the size of the suite, and recommendations are generated
from the outcome dictionary. -/
def runFullTestSuite (suite : List (String × ProbeRun)) : SuiteResults :=
  let tests := suite.foldl (fun acc p => dictInsert acc p.1 (runOne p.2)) []
  { overall_status := overallStatus (passedCount suite) suite.length
    tests := tests
    recommendations := generateRecommendations tests }

/-- Result of one endpoint health check as consumed by the aggregation in
`_check_application_health`: the `success` flag and the response time
(source `_perform_health_check` always supplies both keys). -/
structure CheckResult where
  success : Bool
  response_time_ms : ℚ
  deriving DecidableEq, Repr

/-- Result of `_check_application_health` for one application (the
`last_check` timestamp is environment data and omitted). -/
structure AppHealthResult where
  status : String
  checks : List CheckResult
  response_time_ms : ℚ
  deriving DecidableEq, Repr

/-- Number of endpoint checks that did not succeed — the `failed_checks`
counter of `_check_application_health`. -/
def failedCount (checks : List CheckResult) : Nat :=
  checks.countP (fun c => !c.success)

/-- Per-application health aggregation `_check_application_health` (source
lines 704-740), as a function of the list of endpoint check results (one
per configured health endpoint): sums response times, divides by the
endpoint count only when the endpoint list is non-empty (the initial value
0 stands otherwise), and grades `failed_checks == 0` healthy,
`failed_checks <= len * 0.5` degraded, else unhealthy. -/
def checkApplicationHealth (checks : List CheckResult) : AppHealthResult :=
  let failed_checks := failedCount checks
  let total_response_time := (checks.map (fun c => c.response_time_ms)).sum
  let avg := if checks.length ≠ 0 then total_response_time / (checks.length : ℚ) else 0
  let status :=
    if failed_checks = 0 then ("healthy")
    else if (failed_checks : ℚ) ≤ (checks.length : ℚ) * (1/2) then ("degraded")
    else ("unhealthy")
  { status := status, checks := checks, response_time_ms := avg }

/-- Per-application entry stored by `monitor_all_applications`: the status
string and the optional `message` entry the alert builder reads. -/
structure HealthResult where
  status : String
  message : Option String := none
  deriving DecidableEq, Repr

/-- Behaviour of one application health check: the result it returns, or
the message of the exception it raises. -/
abbrev HealthRun := Except String HealthResult

/-- Alert entry appended by `monitor_all_applications` for a non-healthy
application. -/
structure Alert where
  app : String
  status : String
  message : String
  deriving DecidableEq, Repr

/-- Snapshot returned by `monitor_all_applications` (the `timestamp` field
is environment data and omitted). -/
structure MonitorResults where
  overall_status : String
  applications : List (String × HealthResult)
  alerts : List Alert
  deriving DecidableEq, Repr

/-- Loop body of `monitor_all_applications` (source lines 672-691) acting
on the accumulator (applications, alerts, unhealthy_count): a returned
result is stored and, when non-healthy, counted and alerted with its
message (default `Application unhealthy`); an exception is caught, stored
as status `error` with the exception text as message, and counted — with no
alert appended. -/
def processApp (acc : List (String × HealthResult) × List Alert × Nat)
    (p : String × HealthRun) : List (String × HealthResult) × List Alert × Nat :=
  match p.2 with
  | .ok h =>
    if h.status ≠ "healthy" then
      (acc.1 ++ [(p.1, h)],
       acc.2.1 ++ [{ app := p.1, status := h.status,
                     message := h.message.getD ("Application unhealthy") }],
       acc.2.2 + 1)
    else
      (acc.1 ++ [(p.1, h)], acc.2.1, acc.2.2)
  | .error e =>
    (acc.1 ++ [(p.1, { status := "error", message := some e })], acc.2.1, acc.2.2 + 1)

/-- Monitoring cycle `monitor_all_applications` (source lines 661-702):
processes every configured application in order (the configuration is a
Python dictionary, so application names are unique), then derives the
overall status from `unhealthy_count`: 0 means healthy,
`unhealthy_count <= total_apps * 0.2` means degraded, else unhealthy. -/
def monitorAllApplications (apps : List (String × HealthRun)) : MonitorResults :=
  let st := apps.foldl processApp ([], [], 0)
  let total_apps := apps.length
  let overall :=
    if st.2.2 = 0 then ("healthy")
    else if (st.2.2 : ℚ) ≤ (total_apps : ℚ) * (1/5) then ("degraded")
    else ("unhealthy")
  { overall_status := overall, applications := st.1, alerts := st.2.1 }

/-- Applications dictionary entry a run produces: the returned result, or
the caught-exception entry. -/
def healthOf (p : String × HealthRun) : String × HealthResult :=
  match p.2 with
  | .ok h => (p.1, h)
  | .error e => (p.1, { status := "error", message := some e })

/-- Alert a run produces, when any: only a returned non-healthy result
yields one. -/
def alertFor (p : String × HealthRun) : Option Alert :=
  match p.2 with
  | .ok h =>
    if h.status ≠ "healthy" then
      some { app := p.1, status := h.status,
             message := h.message.getD ("Application unhealthy") }
    else none
  | .error _ => none

/-- Number of applications counted as unhealthy by the monitoring cycle:
returned non-healthy results and caught exceptions. -/
def unhealthyCount (apps : List (String × HealthRun)) : Nat :=
  apps.countP (fun p =>
    match p.2 with
    | .ok h => h.status != "healthy"
    | .error _ => true)

/-! Helper lemmas: closed forms for the three accumulation loops. -/

theorem dictInsert_append {d : List (String × TestResult)} {k : String} {v : TestResult}
    (h : ∀ q ∈ d, q.1 ≠ k) : dictInsert d k v = d ++ [(k, v)] := by
  unfold dictInsert
  rw [if_neg]
  simp only [List.any_eq_true, decide_eq_true_eq, not_exists]
  intro q
  exact fun hq => h q hq.1 hq.2

theorem foldl_dictInsert_eq (suite : List (String × ProbeRun)) :
    ∀ acc : List (String × TestResult),
      (acc.map Prod.fst ++ suite.map Prod.fst).Nodup →
      suite.foldl (fun d p => dictInsert d p.1 (runOne p.2)) acc =
        acc ++ suite.map (fun p => (p.1, runOne p.2)) := by
  induction suite with
  | nil => intro acc _; simp
  | cons p rest ih =>
    intro acc hnd
    have hdisj : (acc.map Prod.fst).Disjoint (p.1 :: rest.map Prod.fst) :=
      (List.nodup_append.mp hnd).2.2
    have hnotin : ∀ q ∈ acc, q.1 ≠ p.1 := by
      intro q hq heq
      exact hdisj (List.mem_map_of_mem Prod.fst hq) (heq ▸ List.mem_cons_self _ _)
    rw [List.foldl_cons, dictInsert_append hnotin,
      ih (acc ++ [(p.1, runOne p.2)]) (by simpa using hnd)]
    simp

theorem runFullTestSuite_tests (suite : List (String × ProbeRun))
    (hnd : (suite.map Prod.fst).Nodup) :
    (runFullTestSuite suite).tests = suite.map (fun p => (p.1, runOne p.2)) := by
  show suite.foldl (fun d p => dictInsert d p.1 (runOne p.2)) [] = _
  simpa using foldl_dictInsert_eq suite [] (by simpa using hnd)

theorem dictGet_map_of_mem (suite : List (String × ProbeRun))
    (hnd : (suite.map Prod.fst).Nodup) {p : String × ProbeRun} (hp : p ∈ suite) :
    dictGet (suite.map (fun q => (q.1, runOne q.2))) p.1 = some (runOne p.2) := by
  induction suite with
  | nil => cases hp
  | cons q rest ih =>
    rw [List.map_cons] at hnd
    have hnd' := List.nodup_cons.mp hnd
    rcases List.mem_cons.mp hp with h | h
    · subst h; simp [dictGet]
    · have hne : q.1 ≠ p.1 := by
        intro he
        exact hnd'.1 (he ▸ List.mem_map_of_mem Prod.fst h)
      simpa [dictGet, hne] using ih hnd'.2 h

theorem recStep_eq (recs : List String) (p : String × TestResult) :
    recStep recs p = recs ++ recForResult p.1 p.2 := by
  unfold recStep recForResult
  split_ifs with h1 h2
  · rfl
  · rfl
  · cases p.2.recommendation <;> simp

theorem foldl_recStep (l : List (String × TestResult)) :
    ∀ acc : List String,
      l.foldl recStep acc = acc ++ (l.map (fun p => recForResult p.1 p.2)).flatten := by
  induction l with
  | nil => intro acc; simp
  | cons p rest ih =>
    intro acc
    rw [List.foldl_cons, recStep_eq, ih]
    simp

theorem generateRecommendations_eq (test_results : List (String × TestResult)) :
    generateRecommendations test_results =
      (test_results.map (fun p => recForResult p.1 p.2)).flatten ++ genericRecommendations := by
  unfold generateRecommendations
  rw [foldl_recStep]
  simp

theorem foldl_processApp (apps : List (String × HealthRun)) :
    ∀ s : List (String × HealthResult) × List Alert × Nat,
      apps.foldl processApp s =
        (s.1 ++ apps.map healthOf, s.2.1 ++ apps.filterMap alertFor,
         s.2.2 + unhealthyCount apps) := by
  induction apps with
  | nil => intro s; simp [unhealthyCount]
  | cons p rest ih =>
    intro s
    rw [List.foldl_cons, ih]
    cases hp : p.2 with
    | ok h =>
      by_cases hs : h.status = "healthy"
      · simp [processApp, healthOf, alertFor, unhealthyCount, hp, hs, List.countP_cons]
      · simp only [processApp, healthOf, alertFor, unhealthyCount, hp, List.countP_cons,
          if_pos hs, Prod.mk.injEq]
        refine ⟨by simp [healthOf, hp], by simp [alertFor, hp, hs], by
          simp [unhealthyCount, List.countP_cons, hs]; omega⟩
    | error e =>
      simp only [processApp, hp, Prod.mk.injEq]
      refine ⟨by simp [healthOf, hp], by simp [alertFor, hp], by
        simp [unhealthyCount, List.countP_cons, hp]; omega⟩

theorem overallStatus_eq_excellent (p n : Nat) :
    overallStatus p n = "excellent" ↔ (9:ℚ)/10 ≤ (p:ℚ)/(n:ℚ) := by
  simp only [overallStatus]
  split_ifs with h1 h2 h3
  · exact iff_of_true rfl h1
  · exact iff_of_false (by decide) h1
  · exact iff_of_false (by decide) h1
  · exact iff_of_false (by decide) h1

theorem overallStatus_eq_good (p n : Nat) :
    overallStatus p n = "good" ↔
      (7:ℚ)/10 ≤ (p:ℚ)/(n:ℚ) ∧ (p:ℚ)/(n:ℚ) < (9:ℚ)/10 := by
  simp only [overallStatus]
  split_ifs with h1 h2 h3
  · exact iff_of_false (by decide) (fun hc => absurd h1 (not_le.mpr hc.2))
  · exact iff_of_true rfl ⟨h2, not_le.mp h1⟩
  · exact iff_of_false (by decide) (fun hc => h2 hc.1)
  · exact iff_of_false (by decide) (fun hc => h2 hc.1)

theorem overallStatus_eq_fair (p n : Nat) :
    overallStatus p n = "fair" ↔
      (1:ℚ)/2 ≤ (p:ℚ)/(n:ℚ) ∧ (p:ℚ)/(n:ℚ) < (7:ℚ)/10 := by
  simp only [overallStatus]
  split_ifs with h1 h2 h3
  · exact iff_of_false (by decide) (fun hc => absurd h1 (not_le.mpr (lt_of_lt_of_le hc.2 (by norm_num))))
  · exact iff_of_false (by decide) (fun hc => absurd h2 (not_le.mpr hc.2))
  · exact iff_of_true rfl ⟨h3, not_le.mp h2⟩
  · exact iff_of_false (by decide) (fun hc => h3 hc.1)

theorem overallStatus_eq_poor (p n : Nat) :
    overallStatus p n = "poor" ↔ (p:ℚ)/(n:ℚ) < (1:ℚ)/2 := by
  simp only [overallStatus]
  split_ifs with h1 h2 h3
  · exact iff_of_false (by decide) (not_lt.mpr (le_trans (by norm_num) h1))
  · exact iff_of_false (by decide) (not_lt.mpr (le_trans (by norm_num) h2))
  · exact iff_of_false (by decide) (not_lt.mpr h3)
  · exact iff_of_true rfl (not_le.mp h3)

theorem runFullTestSuite_status (suite : List (String × ProbeRun)) :
    (runFullTestSuite suite).overall_status =
      overallStatus (passedCount suite) suite.length := rfl

/-! Claim theorems. -/

/-- C2: for every probe set of size N handed to the batch runner, the
returned result contains exactly N outcomes, one per scheduled probe and
keyed by probe name, no matter how the probes behave (return or fault). -/
theorem C2_batch_completeness (suite : List (String × ProbeRun))
    (hnd : (suite.map Prod.fst).Nodup) :
    (runFullTestSuite suite).tests.length = suite.length ∧
    (runFullTestSuite suite).tests.map Prod.fst = suite.map Prod.fst := by
  rw [runFullTestSuite_tests suite hnd]
  constructor
  · simp
  · simp [List.map_map]

def c2Suite : List (String × ProbeRun) :=
  [("dependency_check", .ok { status := "passed" }),
   ("unit_tests", .error ("boom")),
   ("security_scan", .ok { status := "failed", error := some ("CVE-1234") })]

/-- C2 witness: a batch of three probes, one of which faults, still yields
three outcomes under the three probe names. -/
theorem C2_batch_completeness_witness :
    (runFullTestSuite c2Suite).tests.length = c2Suite.length ∧
    (runFullTestSuite c2Suite).tests.map Prod.fst = c2Suite.map Prod.fst :=
  C2_batch_completeness c2Suite (by decide)

/-- C3: a probe whose run faults is recorded as an outcome with status
`error` and the fault text, the batch call still returns, and every probe
of the batch reports the outcome of its own run alone, unaffected by the
faulting probe. -/
theorem C3_fault_isolation (suite : List (String × ProbeRun))
    (hnd : (suite.map Prod.fst).Nodup) :
    ∀ p ∈ suite,
      dictGet (runFullTestSuite suite).tests p.1 = some (runOne p.2) ∧
      ∀ e : String, p.2 = Except.error e →
        dictGet (runFullTestSuite suite).tests p.1 =
          some { status := "error", error := some e } := by
  intro p hp
  rw [runFullTestSuite_tests suite hnd]
  refine ⟨dictGet_map_of_mem suite hnd hp, ?_⟩
  intro e he
  rw [dictGet_map_of_mem suite hnd hp, he]
  rfl

def c3Suite : List (String × ProbeRun) :=
  [("dependency_check", .ok { status := "passed" }),
   ("security_scan", .error ("connection refused")),
   ("ai_model_tests", .ok { status := "passed" })]

/-- C3 witness: in a batch with a faulting probe between two passing ones,
the faulting probe reports an error outcome with the fault text and a
healthy probe still reports its passed outcome. -/
theorem C3_fault_isolation_witness :
    dictGet (runFullTestSuite c3Suite).tests ("security_scan") =
      some { status := "error", error := some ("connection refused") } ∧
    dictGet (runFullTestSuite c3Suite).tests ("dependency_check") =
      some { status := "passed" } := by
  constructor
  · exact (C3_fault_isolation c3Suite (by decide)
      ("security_scan", .error ("connection refused")) (by decide)).2
      ("connection refused") rfl
  · exact (C3_fault_isolation c3Suite (by decide)
      ("dependency_check", .ok { status := "passed" }) (by decide)).1

def c1Suite : List (String × ProbeRun) :=
  [("unit_tests", .ok { status := "skipped", recommendation := some ("Add unit tests") }),
   ("integration_tests",
     .ok { status := "skipped", recommendation := some ("Implement AI model integration tests") }),
   ("dependency_check", .ok { status := "passed" }),
   ("configuration_validation", .ok { status := "passed" })]

/-- C1 counterexample: a batch of 4 probes with 2 skipped and 2 passed is
graded `fair`, not the best tier: skipped outcomes are not excluded from
the denominator, the verdict comes from success_rate = 2/4. -/
theorem C1_counterexample :
    (runFullTestSuite c1Suite).overall_status = "fair" ∧ "fair" ≠ "excellent" := by
  constructor
  · rw [runFullTestSuite_status]
    have h1 : passedCount c1Suite = 2 := by decide
    have h2 : c1Suite.length = 4 := by decide
    rw [h1, h2]
    norm_num [overallStatus]
  · decide

/-- C1 amended: the verdict is a function of the passed count over the
total probe count, skipped outcomes included in the denominator; every
batch of 4 probes with exactly 2 passed — in particular 2 skipped and 2
passed — is graded `fair`, not the best tier. -/
theorem C1_amended (suite : List (String × ProbeRun))
    (hlen : suite.length = 4) (hpass : passedCount suite = 2) :
    (runFullTestSuite suite).overall_status = "fair" := by
  rw [runFullTestSuite_status, hlen, hpass]
  norm_num [overallStatus]

/-- C1 amended witness: the 2-skipped, 2-passed batch of four probes is
graded `fair`. -/
theorem C1_amended_witness :
    (runFullTestSuite c1Suite).overall_status = "fair" :=
  C1_amended c1Suite (by decide) (by decide)

def c4Suite : List (String × ProbeRun) :=
  [("dependency_check", .ok { status := "passed" }),
   ("security_scan", .ok { status := "failed", error := some ("CVE-1234") })]

/-- C4 counterexample: one failed probe out of two non-skipped probes has
failure ratio 1/2, above the claimed `fair` cutoff 0.3, so the claim
selects `poor`; the code grades the batch `fair` (success_rate = 1/2 meets
the `>= 0.5` branch). -/
theorem C4_counterexample :
    (runFullTestSuite c4Suite).overall_status = "fair" ∧ "fair" ≠ "poor" := by
  constructor
  · rw [runFullTestSuite_status]
    have h1 : passedCount c4Suite = 1 := by decide
    have h2 : c4Suite.length = 2 := by decide
    rw [h1, h2]
    norm_num [overallStatus]
  · decide

/-- C4 amended: the verdict is selected from the success rate over all
outcomes — equivalently from the non-passed ratio fr = 1 - passed/total,
in which skipped outcomes count like failures: fr ≤ 0.1 gives excellent,
0.1 < fr ≤ 0.3 gives good, 0.3 < fr ≤ 0.5 gives fair, and any higher
ratio gives poor, for every non-empty outcome set. -/
theorem C4_amended (suite : List (String × ProbeRun)) (hne : suite ≠ []) :
    ((runFullTestSuite suite).overall_status = "excellent" ↔
      1 - (passedCount suite : ℚ) / (suite.length : ℚ) ≤ 1/10) ∧
    ((runFullTestSuite suite).overall_status = "good" ↔
      1/10 < 1 - (passedCount suite : ℚ) / (suite.length : ℚ) ∧
        1 - (passedCount suite : ℚ) / (suite.length : ℚ) ≤ 3/10) ∧
    ((runFullTestSuite suite).overall_status = "fair" ↔
      3/10 < 1 - (passedCount suite : ℚ) / (suite.length : ℚ) ∧
        1 - (passedCount suite : ℚ) / (suite.length : ℚ) ≤ 1/2) ∧
    ((runFullTestSuite suite).overall_status = "poor" ↔
      1/2 < 1 - (passedCount suite : ℚ) / (suite.length : ℚ)) := by
  rw [runFullTestSuite_status]
  refine ⟨?_, ?_, ?_, ?_⟩
  · rw [overallStatus_eq_excellent]
    constructor <;> intro h <;> linarith
  · rw [overallStatus_eq_good]
    constructor <;> intro h <;> exact ⟨by linarith [h.1, h.2], by linarith [h.1, h.2]⟩
  · rw [overallStatus_eq_fair]
    constructor <;> intro h <;> exact ⟨by linarith [h.1, h.2], by linarith [h.1, h.2]⟩
  · rw [overallStatus_eq_poor]
    constructor <;> intro h <;> linarith

def c4AllPassed : List (String × ProbeRun) :=
  [("dependency_check", .ok { status := "passed" }),
   ("configuration_validation", .ok { status := "passed" }),
   ("unit_tests", .ok { status := "passed" }),
   ("integration_tests", .ok { status := "passed" }),
   ("performance_tests", .ok { status := "passed" }),
   ("security_scan", .ok { status := "passed" }),
   ("ai_model_tests", .ok { status := "passed" })]

/-- C4 amended witness: a seven-probe batch with every probe passed has
non-passed ratio 0 and is graded `excellent`. -/
theorem C4_amended_witness :
    (runFullTestSuite c4AllPassed).overall_status = "excellent" := by
  refine (C4_amended c4AllPassed (by decide)).1.mpr ?_
  have h1 : passedCount c4AllPassed = 7 := by decide
  have h2 : c4AllPassed.length = 7 := by decide
  rw [h1, h2]
  norm_num

def c8Suite : List (String × ProbeRun) :=
  [("dependency_check", .ok { status := "skipped" }),
   ("configuration_validation", .ok { status := "skipped" }),
   ("unit_tests", .ok { status := "skipped", recommendation := some ("Add unit tests") }),
   ("integration_tests", .ok { status := "skipped" }),
   ("performance_tests", .ok { status := "skipped" }),
   ("security_scan", .ok { status := "skipped" }),
   ("ai_model_tests", .ok { status := "skipped" })]

/-- C8 counterexample: a battery in which every outcome is skipped is
graded `poor`, not `unknown`: the aggregation always overwrites the
initial `unknown` placeholder, and an all-skipped set has success rate
0. -/
theorem C8_counterexample :
    (runFullTestSuite c8Suite).overall_status = "poor" ∧ "poor" ≠ "unknown" := by
  constructor
  · rw [runFullTestSuite_status]
    have h1 : passedCount c8Suite = 0 := by decide
    have h2 : c8Suite.length = 7 := by decide
    rw [h1, h2]
    norm_num [overallStatus]
  · decide

/-- C8 amended: aggregation of a degenerate battery does not yield
`unknown`: every non-empty outcome set without a passed outcome — in
particular an entirely skipped one — is graded `poor` (success rate 0);
the `unknown` value is only the pre-aggregation placeholder and never
survives, and an empty outcome set cannot arise since the battery is a
fixed seven-probe suite. -/
theorem C8_amended (suite : List (String × ProbeRun)) (hne : suite ≠ [])
    (hnp : ∀ p ∈ suite, (runOne p.2).status ≠ "passed") :
    (runFullTestSuite suite).overall_status = "poor" := by
  have hp : passedCount suite = 0 := by
    unfold passedCount
    rw [List.countP_eq_zero]
    intro r hr
    rcases List.mem_map.mp hr with ⟨q, hq, rfl⟩
    simpa using hnp q hq
  rw [runFullTestSuite_status, hp]
  simp only [overallStatus, Nat.cast_zero, zero_div]
  norm_num

/-- C8 amended witness: the entirely skipped seven-probe battery is graded
`poor`. -/
theorem C8_amended_witness :
    (runFullTestSuite c8Suite).overall_status = "poor" :=
  C8_amended c8Suite (by decide) (by decide)

theorem monitorAll_unhealthy_count (apps : List (String × HealthRun)) :
    (apps.foldl processApp ([], [], 0)).2.2 = unhealthyCount apps := by
  rw [foldl_processApp]
  simp

theorem monitorAll_status (apps : List (String × HealthRun)) :
    (monitorAllApplications apps).overall_status =
      (if unhealthyCount apps = 0 then ("healthy")
       else if (unhealthyCount apps : ℚ) ≤ (apps.length : ℚ) * (1/5) then ("degraded")
       else ("unhealthy")) := by
  simp only [monitorAllApplications, monitorAll_unhealthy_count]

theorem rat_le_mul_inv_iff (c n k : Nat) (hk : 0 < k) :
    ((c : ℚ) ≤ (n : ℚ) * (1/(k : ℚ))) ↔ k * c ≤ n := by
  have hkq : (0:ℚ) < (k:ℚ) := by exact_mod_cast hk
  rw [mul_one_div, le_div_iff₀ hkq,
    show (c:ℚ) * (k:ℚ) = ((c * k : ℕ) : ℚ) by push_cast; ring,
    Nat.cast_le, Nat.mul_comm]

def fiveApps : List (String × HealthRun) :=
  [("app1", .ok { status := "healthy" }),
   ("app2", .ok { status := "healthy" }),
   ("app3", .ok { status := "healthy" }),
   ("app4", .ok { status := "healthy" }),
   ("app5", .ok { status := "unhealthy" })]

/-- C5: the snapshot overall status is healthy exactly when no application
is counted non-healthy, degraded exactly when some are but their count is
at most 20% of the total, and unhealthy exactly when it exceeds 20%;
moreover with 5 applications of which exactly 1 is unhealthy (ratio
exactly 0.2) the overall status is degraded, not unhealthy. -/
theorem C5_overall_status :
    (∀ apps : List (String × HealthRun),
      ((monitorAllApplications apps).overall_status = "healthy" ↔
        unhealthyCount apps = 0) ∧
      ((monitorAllApplications apps).overall_status = "degraded" ↔
        0 < unhealthyCount apps ∧ 5 * unhealthyCount apps ≤ apps.length) ∧
      ((monitorAllApplications apps).overall_status = "unhealthy" ↔
        apps.length < 5 * unhealthyCount apps)) ∧
    (monitorAllApplications fiveApps).overall_status = "degraded" := by
  have main : ∀ apps : List (String × HealthRun),
      ((monitorAllApplications apps).overall_status = "healthy" ↔
        unhealthyCount apps = 0) ∧
      ((monitorAllApplications apps).overall_status = "degraded" ↔
        0 < unhealthyCount apps ∧ 5 * unhealthyCount apps ≤ apps.length) ∧
      ((monitorAllApplications apps).overall_status = "unhealthy" ↔
        apps.length < 5 * unhealthyCount apps) := by
    intro apps
    rw [monitorAll_status]
    have hq := rat_le_mul_inv_iff (unhealthyCount apps) apps.length 5 (by norm_num)
    split_ifs with h1 h2
    · refine ⟨iff_of_true rfl h1, iff_of_false (by decide) ?_, iff_of_false (by decide) ?_⟩
      · omega
      · omega
    · have h5 := hq.mp h2
      refine ⟨iff_of_false (by decide) h1,
        iff_of_true rfl ⟨Nat.pos_of_ne_zero h1, h5⟩, iff_of_false (by decide) ?_⟩
      omega
    · have h5 : ¬ 5 * unhealthyCount apps ≤ apps.length := fun hc => h2 (hq.mpr hc)
      refine ⟨iff_of_false (by decide) h1, iff_of_false (by decide) ?_,
        iff_of_true rfl ?_⟩
      · omega
      · omega
  refine ⟨main, ?_⟩
  refine ((main fiveApps).2.1).mpr ⟨?_, ?_⟩
  · decide
  · decide

/-- C6: on the three-tier liveness scale the per-application verdict is
healthy exactly when zero endpoint checks failed, degraded exactly when
some failed but the failed fraction is at most one half, and unhealthy
exactly when more than half failed, for every non-empty check list. -/
theorem C6_liveness_tiers (checks : List CheckResult) (hne : checks ≠ []) :
    ((checkApplicationHealth checks).status = "healthy" ↔ failedCount checks = 0) ∧
    ((checkApplicationHealth checks).status = "degraded" ↔
      0 < failedCount checks ∧ 2 * failedCount checks ≤ checks.length) ∧
    ((checkApplicationHealth checks).status = "unhealthy" ↔
      checks.length < 2 * failedCount checks) := by
  have hst : (checkApplicationHealth checks).status =
      (if failedCount checks = 0 then ("healthy")
       else if (failedCount checks : ℚ) ≤ (checks.length : ℚ) * (1/2) then ("degraded")
       else ("unhealthy")) := rfl
  rw [hst]
  have hq := rat_le_mul_inv_iff (failedCount checks) checks.length 2 (by norm_num)
  split_ifs with h1 h2
  · refine ⟨iff_of_true rfl h1, iff_of_false (by decide) ?_, iff_of_false (by decide) ?_⟩
    · omega
    · omega
  · have h5 := hq.mp h2
    refine ⟨iff_of_false (by decide) h1,
      iff_of_true rfl ⟨Nat.pos_of_ne_zero h1, h5⟩, iff_of_false (by decide) ?_⟩
    omega
  · have h5 : ¬ 2 * failedCount checks ≤ checks.length := fun hc => h2 (hq.mpr hc)
    refine ⟨iff_of_false (by decide) h1, iff_of_false (by decide) ?_,
      iff_of_true rfl ?_⟩
    · omega
    · omega

def c6Checks : List CheckResult :=
  [{ success := true, response_time_ms := 120 },
   { success := false, response_time_ms := 10000 }]

/-- C6 witness: two endpoint checks with one failure (ratio exactly one
half) give the verdict degraded. -/
theorem C6_liveness_tiers_witness :
    (checkApplicationHealth c6Checks).status = "degraded" := by
  refine ((C6_liveness_tiers c6Checks (by decide)).2.1).mpr ⟨?_, ?_⟩
  · decide
  · decide

def c7Apps : List (String × HealthRun) :=
  [("app1", .error ("connection refused"))]

/-- C7 counterexample: an application whose health check raises an
exception is recorded with status `error` — not healthy — and counted
unhealthy, yet the alerts list of the snapshot stays empty: non-healthy
subjects whose check raised get no alert entry. -/
theorem C7_counterexample :
    (monitorAllApplications c7Apps).applications =
      [("app1", { status := "error", message := some ("connection refused") })] ∧
    (monitorAllApplications c7Apps).alerts = [] ∧
    ("error" : String) ≠ "healthy" := by
  refine ⟨rfl, rfl, by decide⟩

/-- C7 amended: the alerts list contains exactly the alert entries of the
applications whose check returned a non-healthy status — one each, in
application order, none for healthy applications — while an application
whose check raised an exception is recorded with status `error` but
contributes no alert entry. -/
theorem C7_amended (apps : List (String × HealthRun)) :
    (monitorAllApplications apps).alerts = apps.filterMap alertFor ∧
    (monitorAllApplications apps).applications = apps.map healthOf := by
  constructor
  · show (apps.foldl processApp ([], [], 0)).2.1 = _
    rw [foldl_processApp]
    simp
  · show (apps.foldl processApp ([], [], 0)).1 = _
    rw [foldl_processApp]
    simp

def c9Tests : List (String × TestResult) :=
  [("unit_tests", { status := "skipped", recommendation := some ("Add unit tests") }),
   ("security_scan", { status := "failed", error := some ("CVE-1234") })]

/-- C9 counterexample: with a skipped outcome recorded before a failed
one, the generated list places the skipped reminder before the failed fix
entry, so failed-outcome recommendations do not come first. -/
theorem C9_counterexample :
    generateRecommendations c9Tests =
      "⚠️ Implement unit_tests: Add unit tests" ::
        "🔴 Fix security_scan: CVE-1234" :: genericRecommendations ∧
    generateRecommendations c9Tests ≠
      "🔴 Fix security_scan: CVE-1234" ::
        "⚠️ Implement unit_tests: Add unit tests" :: genericRecommendations := by
  constructor
  · rfl
  · decide

/-- C9 amended: recommendations are generated per outcome in the order the
outcomes are recorded — a fix entry for a failed outcome, an implement
reminder for a skipped outcome, otherwise its attached recommendation as
an advisory — so the categories are interleaved in probe order rather than
grouped failed-first; the fixed five generic hygiene reminders are
appended unconditionally at the end. -/
theorem C9_amended (test_results : List (String × TestResult)) :
    generateRecommendations test_results =
      (test_results.map (fun p => recForResult p.1 p.2)).flatten ++
        genericRecommendations ∧
    genericRecommendations.IsSuffix (generateRecommendations test_results) := by
  refine ⟨generateRecommendations_eq test_results, ?_⟩
  exact ⟨(test_results.map (fun p => recForResult p.1 p.2)).flatten ++ [],
    by simpa using (generateRecommendations_eq test_results).symm⟩

/-- C10: with an empty health-endpoint list the per-application check
reports status healthy, response time 0 and an empty check list; and
whenever the check list is non-empty the reported response time is the
exact average of the individual response times, the division being guarded
by the non-emptiness test. -/
theorem C10_no_endpoints :
    (checkApplicationHealth []).status = "healthy" ∧
    (checkApplicationHealth []).response_time_ms = 0 ∧
    (checkApplicationHealth []).checks = [] ∧
    ∀ checks : List CheckResult, checks ≠ [] →
      (checkApplicationHealth checks).response_time_ms * (checks.length : ℚ) =
        (checks.map (fun c => c.response_time_ms)).sum := by
  refine ⟨rfl, rfl, rfl, ?_⟩
  intro checks hne
  have hlen : checks.length ≠ 0 := fun h => hne (List.length_eq_zero.mp h)
  have hcast : (checks.length : ℚ) ≠ 0 := by exact_mod_cast hlen
  have hrt : (checkApplicationHealth checks).response_time_ms =
      (checks.map (fun c => c.response_time_ms)).sum / (checks.length : ℚ) := by
    show (if checks.length ≠ 0 then
        (checks.map (fun c => c.response_time_ms)).sum / (checks.length : ℚ) else 0) = _
    rw [if_pos hlen]
  rw [hrt, div_mul_cancel₀ _ hcast]

def c10Checks : List CheckResult :=
  [{ success := true, response_time_ms := 120 },
   { success := true, response_time_ms := 80 }]

/-- C10 witness: for a two-check list the reported response time times the
check count equals the summed response times. -/
theorem C10_no_endpoints_witness :
    (checkApplicationHealth c10Checks).response_time_ms * (c10Checks.length : ℚ) =
      (c10Checks.map (fun c => c.response_time_ms)).sum :=
  C10_no_endpoints.2.2.2 c10Checks (by decide)

end AIApps
